import Mathlib

/-!
Shallow embedding of the dataset-acquisition engine of the
qgis-linz-downloader plugin (src/core/models.py, src/core/downloader.py,
src/providers/linz.py), together with theorems settling the frozen claims
about its specification.

Conventions of the embedding:
- Python machine floats are modelled as exact rationals (ℚ); the claims
  settled here do not depend on float rounding.
- Network I/O is modelled by environment records holding the observable
  responses (status codes, body text, chunk sizes, poll states).
- The progress callback is a function `ℚ → Nat → Nat → Bool`; a `false`
  return models Python `progress_callback(...) == False` (the cancellation
  signal); returning `true` models any other value, including `None`.
- Fallible/looping code is driven by explicit fuel; `none` means the loop
  has not produced an outcome within the given number of iterations.
-/

namespace LinzSpec

/-! ### src/core/models.py -/

/-- models.py `DataType`. -/
inductive DataType
  | raster
  | vector
  | pointcloud
deriving DecidableEq, Repr

/-- The entries of the `Dataset.metadata` dict that `LINZProvider.download`
reads (linz.py:427, 435, 446, 526): `portal_only`, `domain`, `layer_id` and
`type`. -/
structure DatasetMeta where
  domain : String := "data.linz.govt.nz"
  layer_id : String := ""
  layer_type : String := "layer"
  portal_only : Bool := false
deriving DecidableEq, Repr

/-- models.py `Dataset`. `size_bytes` is `Optional[int]` in the source but is
divided in place by 1024 inside `size_display`, which turns it into a float;
we therefore model it as `Option ℚ`. The free-form metadata dict is modelled
by the `DatasetMeta` record of the keys the engine reads. -/
structure Dataset where
  id : String
  name : String
  provider : String := "linz"
  category : String := ""
  data_type : DataType
  crs : String := "EPSG:2193"
  size_bytes : Option ℚ := none
  download_url : Option String := none
  metadata : DatasetMeta := {}
deriving DecidableEq, Repr

/-- models.py `DownloadResult`. Its fields are `dataset`, `output_path`,
`success`, `error_message`, `warning_message` and `clipped`; there is no
field named `already_clipped`. The back-reference to the dataset is omitted
here (no claim reads it); `Path` is modelled as `String`. -/
structure DownloadResult where
  output_path : String
  success : Bool
  error_message : Option String := none
  warning_message : Option String := none
  clipped : Bool := false
deriving DecidableEq, Repr

/-- Helper: the failed `DownloadResult(dataset=…, output_path=…,
success=False, error_message=…)` constructions that appear throughout
linz.py. -/
def mkFail (output_path msg : String) : DownloadResult :=
  { output_path := output_path, success := false, error_message := some msg }

/-- models.py `Dataset.size_display`, the loop body: iterate over the unit
list; if the current value is below 1024 return the formatted string,
otherwise divide the value by 1024 (the source performs this division on
`self.size_bytes` itself, i.e. it mutates the field) and continue; after the
list is exhausted return the PB string. The second component is the value
left in `self.size_bytes` when the property returns. Python `{:.1f}`
formatting is abstracted as `toString` of the exact rational; no claim
depends on the rendered digits. -/
def sizeDisplayAux : ℚ → List String → String × ℚ
  | size, [] => (toString size ++ " PB", size)
  | size, u :: us =>
      if size < 1024 then (toString size ++ " " ++ u, size)
      else sizeDisplayAux (size / 1024) us

/-- models.py `Dataset.size_display` (lines 25-33) as a state-passing
function: input the current `size_bytes`, output the display string and the
`size_bytes` field value after the call. -/
def size_display (size_bytes : Option ℚ) : String × Option ℚ :=
  match size_bytes with
  | none => ("Unknown", none)
  | some size =>
      let p := sizeDisplayAux size ["B", "KB", "MB", "GB", "TB"]
      (p.1, some p.2)

/-! ### src/core/downloader.py - DownloadManager.download_multiple -/

/-- The mutable state captured by the closures in
`DownloadManager.download_multiple` (downloader.py:130-139): the `results`
list, the `completed_count` cell, and a log of every invocation of
`on_all_complete` (each entry records the argument it was called with). -/
structure BatchState (R : Type) where
  results : List R
  completedCount : Nat
  allCompleteCalls : List (List R)
deriving DecidableEq, Repr

/-- downloader.py `handle_complete` (lines 133-139): append the result,
increment the counter, and when the counter reaches `len(datasets)` invoke
`on_all_complete` with the accumulated results. `n` is `len(datasets)`. -/
def handle_complete {R : Type} (n : Nat) (s : BatchState R) (r : R) : BatchState R :=
  let results := s.results ++ [r]
  let c := s.completedCount + 1
  { results := results
    completedCount := c
    allCompleteCalls := if c = n then s.allCompleteCalls ++ [results] else s.allCompleteCalls }

/-- `DownloadManager.download_multiple` observed at completion time: each
spawned `DownloadTask` eventually has `finished` run once, which calls
`handle_complete` with that task's `DownloadResult` (downloader.py:78-80;
`DownloadTask.run` always sets `self.result` because `provider.download`
returns on every path). `rs` is the list of per-task results in completion
order; the fold replays the `handle_complete` calls. -/
def download_multiple {R : Type} (n : Nat) (rs : List R) : BatchState R :=
  rs.foldl (handle_complete n) ⟨[], 0, []⟩

theorem foldl_handle_complete {R : Type} (n : Nat) (rs : List R) :
    ∀ s : BatchState R, s.completedCount + rs.length ≤ n →
      (rs.foldl (handle_complete n) s).results = s.results ++ rs ∧
      (rs.foldl (handle_complete n) s).completedCount = s.completedCount + rs.length ∧
      (rs.foldl (handle_complete n) s).allCompleteCalls =
        s.allCompleteCalls ++
          (if s.completedCount + rs.length = n ∧ rs.length ≠ 0 then [s.results ++ rs] else []) := by
  induction rs with
  | nil =>
      intro s _
      simp
  | cons r rs ih =>
      intro s h
      simp only [List.foldl_cons]
      have h' : (handle_complete n s r).completedCount + rs.length ≤ n := by
        simp only [handle_complete]
        simpa [Nat.add_assoc, Nat.add_comm 1 rs.length] using h
      obtain ⟨h1, h2, h3⟩ := ih (handle_complete n s r) h'
      refine ⟨?_, ?_, ?_⟩
      · rw [h1]; simp [handle_complete]
      · rw [h2]; simp [handle_complete]; omega
      · rw [h3]
        by_cases hnil : rs = []
        · subst hnil
          simp only [handle_complete, List.foldl_nil, List.length_cons, List.length_nil,
            Nat.add_zero, ne_eq, Nat.add_one_ne_zero, not_false_eq_true, and_true]
          split <;> simp
        · have hlen : rs.length ≠ 0 := fun h0 => hnil (List.length_eq_zero.mp h0)
          have hne : s.completedCount + 1 ≠ n := by
            simp only [List.length_cons] at h
            omega
          simp only [handle_complete, List.length_cons, if_neg hne]
          have hcond : (s.completedCount + 1 + rs.length = n ∧ rs.length ≠ 0) ↔
              (s.completedCount + (rs.length + 1) = n ∧ rs.length + 1 ≠ 0) := by
            constructor
            · rintro ⟨ha, _⟩; exact ⟨by omega, by omega⟩
            · rintro ⟨ha, _⟩; exact ⟨by omega, hlen⟩
          by_cases hc : s.completedCount + 1 + rs.length = n ∧ rs.length ≠ 0
          · rw [if_pos hc, if_pos (hcond.mp hc)]
            simp
          · rw [if_neg hc, if_neg (fun hx => hc (by
              obtain ⟨ha, _⟩ := hx
              exact ⟨by omega, hlen⟩))]

/-- C1: for every batch download of N requested datasets via
`DownloadManager.download_multiple`, exactly N `DownloadResult`s are produced
(one per dataset: each task finishes once and contributes one result), and
`on_all_complete` is invoked exactly once, after the last of the N
completions, with the list of all N results; in particular it is never
invoked while only a proper subset of completions has been processed. -/
theorem download_multiple_all_complete {R : Type} (n : Nat) (rs : List R)
    (hlen : rs.length = n) (hpos : 0 < n) :
    (download_multiple n rs).results = rs ∧
    (download_multiple n rs).allCompleteCalls = [rs] ∧
    (∀ k, k < n → (download_multiple n (rs.take k)).allCompleteCalls = []) := by
  have hmain := foldl_handle_complete n rs ⟨[], 0, []⟩ (by simp [hlen])
  obtain ⟨h1, _, h3⟩ := hmain
  refine ⟨by simpa [download_multiple] using h1, ?_, ?_⟩
  · have hcond : (0 + rs.length = n ∧ rs.length ≠ 0) := ⟨by omega, by omega⟩
    simpa [download_multiple, hcond] using h3
  · intro k hk
    have htake : (rs.take k).length = k := by
      rw [List.length_take]
      omega
    have key := foldl_handle_complete n (rs.take k) ⟨[], 0, []⟩
      (by simp only [htake]; omega)
    obtain ⟨-, -, h3'⟩ := key
    have hcond : ¬(0 + (rs.take k).length = n ∧ (rs.take k).length ≠ 0) := by
      rw [htake]
      rintro ⟨ha, -⟩
      omega
    simp only [download_multiple]
    rw [h3', if_neg hcond]
    simp

/-- Witness for C1 at N = 3. -/
theorem download_multiple_all_complete_witness :
    (download_multiple 3 [10, 20, 30]).results = [10, 20, 30] ∧
    (download_multiple 3 [10, 20, 30]).allCompleteCalls = [[10, 20, 30]] ∧
    (∀ k, k < 3 → (download_multiple 3 ([10, 20, 30].take k)).allCompleteCalls = []) :=
  download_multiple_all_complete 3 [10, 20, 30] rfl (by decide)

/-- C8: reading the `size_display` property of a `Dataset` whose
`size_bytes` is 2048 leaves `size_bytes` equal to 2 (the loop body
`self.size_bytes /= 1024` mutates the field in place, models.py:32), so the
field is not preserved by the read. -/
theorem size_display_mutates_size_bytes :
    (size_display (some 2048)).2 = some 2 ∧ (some (2 : ℚ) ≠ some (2048 : ℚ)) := by
  constructor
  · simp only [size_display, sizeDisplayAux]
    norm_num
  · decide

/-! ### src/providers/linz.py - coverage validation -/

/-- The backend responses observed by one coverage probe
(`_check_single_layer_coverage`, linz.py:347-390): whether the POST of the
provisional export raised, its status code, and the `is_valid` field of a
200 response body. A stable backend is a function from layer id to
`ProbeEnv`. -/
structure ProbeEnv where
  raised : Bool := false
  status : Nat := 0
  is_valid : Bool := false
deriving DecidableEq, Repr

/-- linz.py `_check_single_layer_coverage` (lines 347-390): no API key or any
raised exception gives `None`; a 201 means the provisional export was created
(the best-effort DELETE cleanup at lines 375-382 is swallowed and does not
affect the returned value) and confirms the layer; a 200 confirms it only
when the body says `is_valid`; everything else gives `None`. -/
def check_single_layer_coverage (api_key : String) (env : ProbeEnv)
    (layer_id : String) : Option String :=
  if api_key = "" then none
  else if env.raised then none
  else if env.status = 201 then some layer_id
  else if env.status = 200 ∧ env.is_valid then some layer_id
  else none

/-- linz.py `_validate_coverage` (lines 392-415): one probe per candidate
layer id, futures drained with `as_completed`, each non-`None` probe result
inserted into the `valid_ids` set. `completionOrder` is the order in which
the futures complete; with a stable backend each future's value depends only
on its layer id. -/
def validate_coverage (api_key : String) (probes : String → ProbeEnv)
    (completionOrder : List String) : Finset String :=
  completionOrder.foldl
    (fun acc lid =>
      match check_single_layer_coverage api_key (probes lid) lid with
      | some r => insert r acc
      | none => acc) ∅

/-- C9: for a fixed set of candidate layer ids and a stable backend (each
probe outcome a function of its layer id alone), the confirmed-coverage set
computed by `_validate_coverage` is the same for any two completion orders
that are permutations of each other. -/
theorem validate_coverage_order_invariant (api_key : String)
    (probes : String → ProbeEnv) (o₁ o₂ : List String) (h : o₁.Perm o₂) :
    validate_coverage api_key probes o₁ = validate_coverage api_key probes o₂ := by
  unfold validate_coverage
  apply h.foldl_eq'
  intro x _ y _ acc
  cases check_single_layer_coverage api_key (probes x) x <;>
    cases check_single_layer_coverage api_key (probes y) y <;>
      simp [Finset.Insert.comm]

/-- A concrete stable backend for the C9 witness: layer a confirms via 201,
layer b's probe raises, layer c confirms via a valid 200. -/
def probesW : String → ProbeEnv := fun lid =>
  if lid = "a" then { status := 201 }
  else if lid = "b" then { raised := true }
  else { status := 200, is_valid := true }

/-- Witness for C9 on two concrete opposite completion orders. -/
theorem validate_coverage_order_invariant_witness :
    validate_coverage "key" probesW ["a", "b", "c"] =
      validate_coverage "key" probesW ["c", "b", "a"] :=
  validate_coverage_order_invariant "key" probesW ["a", "b", "c"] ["c", "b", "a"]
    (by decide)

/-! ### src/providers/linz.py - WCS direct-stream strategy -/

/-- Whether `hay` starts with `needle`, on character lists. -/
def charsStartWith : List Char → List Char → Bool
  | [], _ => true
  | _ :: _, [] => false
  | n :: ns, h :: hs => n == h && charsStartWith ns hs

/-- Whether `needle` occurs in `hay`, on character lists. -/
def charsContain (needle : List Char) : List Char → Bool
  | [] => needle.isEmpty
  | h :: hs => charsStartWith needle (h :: hs) || charsContain needle hs

/-- Python `needle in hay` on strings. -/
def pyIn (needle hay : String) : Bool :=
  charsContain needle.data hay.data

/-- ASCII lowercasing of one character; the substrings the source lowercases
and searches for are all ASCII, so this is a faithful model of `str.lower`
for every comparison the claims exercise. -/
def asciiLower (c : Char) : Char :=
  if 65 ≤ c.toNat ∧ c.toNat ≤ 90 then Char.ofNat (c.toNat + 32) else c

/-- Python `s.lower()` (ASCII model). -/
def pyLower (s : String) : String :=
  ⟨s.data.map asciiLower⟩

/-- Python slicing `s[:n]`. -/
def pyTake (s : String) (n : Nat) : String :=
  ⟨s.data.take n⟩

/-- The progress callback of the transfer strategies. Arguments are
(percent, bytes downloaded, total bytes); a `false` result models a Python
return value `== False`, the cancellation signal; `true` models every other
return value (including `None`, which is what `DownloadTask.run`'s own
callback always returns). -/
abbrev Cb : Type := ℚ → Nat → Nat → Bool

/-- The observable responses of one WCS GetCoverage request
(`_try_wcs_download`, linz.py:514-594): HTTP status, the text of the
`requests.HTTPError` that `raise_for_status` raises on a 4xx/5xx status,
content type, leading response text, the content-length header (0 when
absent) and the streamed chunk sizes. -/
structure WcsEnv where
  status : Nat := 200
  httpErrText : String := ""
  contentType : String := "image/tiff"
  bodyText : String := ""
  contentLength : Nat := 0
  chunks : List Nat := []
deriving DecidableEq, Repr

/-- The chunked write loop of `_try_wcs_download` (linz.py:571-581): empty
chunks are skipped; each written chunk advances `downloaded`; when a total
is known and the percent has advanced by at least 1 (or the download just
completed) the callback fires, and a `False` return raises
`Exception("Download cancelled")` inside the `with open` block, leaving the
bytes written so far in the file. Returns (file content as the list of
written chunk sizes, bytes downloaded, last reported percent, cancelled). -/
def wcsLoop (cb : Cb) (total : Nat) :
    List Nat → Nat → ℚ → List Nat → List Nat × Nat × ℚ × Bool
  | [], downloaded, lastPercent, content => (content, downloaded, lastPercent, false)
  | c :: rest, downloaded, lastPercent, content =>
      if c = 0 then wcsLoop cb total rest downloaded lastPercent content
      else
        let content' := content ++ [c]
        let downloaded' := downloaded + c
        if total ≠ 0 then
          let percent : ℚ := (downloaded' : ℚ) / (total : ℚ) * 100
          if 1 ≤ percent - lastPercent ∨ downloaded' = total then
            if cb percent downloaded' total = false then (content', downloaded', lastPercent, true)
            else wcsLoop cb total rest downloaded' percent content'
          else wcsLoop cb total rest downloaded' lastPercent content'
        else wcsLoop cb total rest downloaded' lastPercent content'

/-- linz.py `_try_wcs_download` (lines 514-594). The second component is the
content of the file at the final output name `safe_name ++ ".tif"` after the
call: `none` when the strategy failed before opening it, `some chunkSizes`
once `open(output_path, "wb")` has run — note that the source opens the
final output name directly (linz.py:541, 571); there is no temporary name
and no rename, and the partial content is left behind when the cancellation
exception aborts the loop. -/
def try_wcs_download (env : WcsEnv) (cb : Cb) (safe_name out_dir : String) :
    DownloadResult × Option (List Nat) :=
  let output_path := out_dir ++ "/" ++ safe_name ++ ".tif"
  if env.status = 404 then
    (mkFail out_dir "WCS 404 - layer not available via WCS", none)
  else if 400 ≤ env.status then
    (mkFail out_dir ("WCS exception: HTTPError: " ++ env.httpErrText), none)
  else if pyIn "xml" (pyLower env.contentType) &&
      (pyIn "exception" (pyLower (pyTake env.bodyText 1000)) ||
        pyIn "error" (pyLower (pyTake env.bodyText 1000))) then
    (mkFail out_dir ("WCS XML error: " ++ pyTake (pyTake env.bodyText 1000) 200), none)
  else
    let r := wcsLoop cb env.contentLength env.chunks 0 0 []
    if r.2.2.2 then
      (mkFail out_dir "WCS exception: Exception: Download cancelled", some r.1)
    else
      ({ output_path := output_path, success := true }, some r.1)

/-- A WCS environment for the C4 scenario: a healthy streaming response of
300 bytes in three 100-byte chunks. -/
def wcsEnvC4 : WcsEnv :=
  { status := 200, contentType := "image/tiff", contentLength := 300,
    chunks := [100, 100, 100] }

/-- A callback that cancels (returns the Python `False` signal) as soon as at
least `m` bytes have been reported downloaded. -/
def cbCancelAt (m : Nat) : Cb := fun _ downloaded _ => decide (downloaded < m)

/-- C4 counterexample: cancelling the WCS stream after the second of three
chunks aborts with a cancelled outcome, yet an incompletely written file (two
of the three 100-byte chunks) remains at the final output name
`DEM.tif` — the strategy streams straight into the final name, so the claim
that no partial file is left in a final state is false. -/
theorem wcs_cancel_leaves_renamed_file :
    (try_wcs_download wcsEnvC4 (cbCancelAt 200) "DEM" "out").1.success = false ∧
    (try_wcs_download wcsEnvC4 (cbCancelAt 200) "DEM" "out").2 = some [100, 100] ∧
    [100, 100] ≠ wcsEnvC4.chunks := by
  refine ⟨?_, ?_, by decide⟩ <;>
    · simp only [try_wcs_download, wcsEnvC4, cbCancelAt, wcsLoop, pyIn]
      norm_num
      all_goals decide

/-- C4 as amended: returning the cancellation signal from the callback does
abort the WCS strategy promptly — at the chunk whose report triggers the
signal, with no later chunk written — and the outcome is the failed result
with message `WCS exception: Exception: Download cancelled`; however the
partially written file remains at the final output name, because the
strategy writes to that name directly. Stated for the three-chunk stream and
every cancellation point `k`. -/
theorem wcs_cancel_prompt_abort (k : Nat) (h1 : 1 ≤ k) (h3 : k ≤ 3) :
    (try_wcs_download wcsEnvC4 (cbCancelAt (100 * k)) "DEM" "out").1 =
      mkFail "out" "WCS exception: Exception: Download cancelled" ∧
    (try_wcs_download wcsEnvC4 (cbCancelAt (100 * k)) "DEM" "out").2 =
      some (List.replicate k 100) := by
  interval_cases k <;>
    · constructor <;>
      · simp only [try_wcs_download, wcsEnvC4, cbCancelAt, wcsLoop, pyIn]
        norm_num [mkFail, List.replicate]
        all_goals decide

/-- Witness for the amended C4 at cancellation point k = 1. -/
theorem wcs_cancel_prompt_abort_witness :
    (try_wcs_download wcsEnvC4 (cbCancelAt (100 * 1)) "DEM" "out").1 =
      mkFail "out" "WCS exception: Exception: Download cancelled" ∧
    (try_wcs_download wcsEnvC4 (cbCancelAt (100 * 1)) "DEM" "out").2 =
      some (List.replicate 1 100) :=
  wcs_cancel_prompt_abort 1 (by decide) (by decide)

/-! ### src/providers/linz.py - export job polling -/

/-- One response of the export-job status endpoint as the poll loop reads it
(linz.py:902-925): whether the GET (or its `raise_for_status`) raised an
`HTTPError` and with which text, the `state` field, the optional `error`
field, and the optional `download_url` field. -/
structure PollResp where
  raisedText : Option String := none
  state : String := ""
  errorField : Option String := none
  download_url : Option String := none
deriving DecidableEq, Repr

/-- How one run of the polling loop ends. -/
inductive PollOutcome
  | cancelled
  | httpError (s : String)
  | jobFailed (msg : String)
  | ready (url : String)
deriving DecidableEq, Repr

/-- The `while True` polling loop of `_try_export_download`
(linz.py:890-925) and `_try_vector_export_download` (linz.py:675-709), both
verbatim the same: increment `attempt`, report coarse progress
`min(50, attempt * 0.5)` and stop on a cancellation signal; read the status;
a `complete` state with a download URL exits with the URL (a `complete`
state without one falls through to the sleep and repolls); an
`error`/`cancelled`/`failed` state exits as a job failure whose message is
the `error` field, defaulting to the state; anything else sleeps 5 seconds
(`time.sleep(5)`, the fixed interval) and repolls. The source loop has no
attempt bound; `fuel` only truncates the unrolling, and a `none` result
means the loop is still running after `fuel` iterations. `polls i` is the
response to the i-th status request (1-based). -/
def pollLoop (cb : Cb) (polls : Nat → PollResp) : Nat → Nat → Option PollOutcome
  | 0, _ => none
  | fuel + 1, attempt0 =>
      let attempt := attempt0 + 1
      if cb (min 50 ((attempt : ℚ) / 2)) 0 0 = false then some .cancelled
      else
        let r := polls attempt
        match r.raisedText with
        | some s => some (.httpError s)
        | none =>
            if r.state = "complete" then
              match r.download_url with
              | some url => some (.ready url)
              | none => pollLoop cb polls fuel attempt
            else if r.state = "error" ∨ r.state = "cancelled" ∨ r.state = "failed" then
              some (.jobFailed (r.errorField.getD r.state))
            else pollLoop cb polls fuel attempt

/-- A callback that never returns the cancellation signal (this includes the
callback that `DownloadTask.run` installs, which always returns `None`). -/
def cbTrue : Cb := fun _ _ _ => true

/-- A backend whose job never reaches a terminal state: every poll answers
`state = "processing"`. -/
def neverTerminal : Nat → PollResp := fun _ => { state := "processing" }

theorem pollLoop_neverTerminal_none :
    ∀ (fuel attempt0 : Nat), pollLoop cbTrue neverTerminal fuel attempt0 = none := by
  intro fuel
  induction fuel with
  | zero => intro attempt0; rfl
  | succ fuel ih =>
      intro attempt0
      simp only [pollLoop, cbTrue, neverTerminal]
      exact ih (attempt0 + 1)

/-- C3 counterexample: against a backend whose job never reaches a terminal
state (and a callback that never cancels), there is no attempt bound within
which the polling loop of the job-based export strategy produces any outcome
at all — in particular it never reports a timeout failure; the source loop
is `while True` with no attempt counter check (linz.py:890-925). -/
theorem pollLoop_no_bounded_timeout :
    ¬ ∃ bound : Nat, (pollLoop cbTrue neverTerminal bound 0).isSome = true := by
  rintro ⟨bound, hb⟩
  rw [pollLoop_neverTerminal_none bound 0] at hb
  simp at hb

/-- C3 as amended: job status is polled on a fixed 5-second interval
(`time.sleep(5)`), but the attempt count is unbounded — the loop exits only
on a terminal job state, an HTTP error, or a cancellation signal; for every
execution in which the remote job never reaches a terminal state and the
callback never cancels, the loop is still running after any finite number of
iterations, reporting nothing. -/
theorem pollLoop_unbounded (fuel : Nat) :
    pollLoop cbTrue neverTerminal fuel 0 = none :=
  pollLoop_neverTerminal_none fuel 0

/-! ### src/providers/linz.py - job-based export strategy (raster) -/

/-- The text of the `TypeError` that CPython raises for the constructor call
`DownloadResult(dataset=…, output_path=…, success=True, already_clipped=True)`
at linz.py:1018-1023 (and linz.py:772-777): models.py `DownloadResult`
declares no field named `already_clipped`, so the dataclass `__init__`
rejects the keyword. CPython renders the argument name inside quotes; the
quoting is immaterial to every claim and is elided here. -/
def alreadyClippedErr : String :=
  "__init__() got an unexpected keyword argument already_clipped"

/-- Python `s.endswith(suffix)`. -/
def pyEndsWith (hay suffix : String) : Bool :=
  charsStartWith suffix.data.reverse hay.data.reverse

/-- linz.py:957: the raster extensions searched for in the export archive. -/
def rasterExtensions : List String :=
  [".tif", ".tiff", ".asc", ".img", ".dem", ".hgt", ".bil", ".flt", ".nc", ".grd"]

/-- linz.py:959-964: the first archive entry whose lowercased name ends in a
raster extension. -/
def firstRasterEntry (names : List String) : Option String :=
  names.find? (fun n => rasterExtensions.any (fun e => pyEndsWith (pyLower n) e))

/-- linz.py:854-874 (and verbatim at 639-659): the user message of a 4xx
export submission. `items` carries the `invalid_reasons` list of each entry
of the error body's `items` (or `none` when the body is not JSON); the loop
overwrites the message per item: an `outside-extent` reason yields the
coverage message, any other nonempty reason list yields the joined
validation message, an empty list leaves the message unchanged. -/
def exportBadRequestMsg (status : Nat) (items : Option (List (List String))) : String :=
  let base := "Export error (" ++ toString status ++ ")"
  match items with
  | none => base
  | some its =>
      its.foldl
        (fun m reasons =>
          if reasons.contains "outside-extent" then
            "Selected area is outside this dataset's coverage"
          else if reasons ≠ [] then
            "Export validation failed: " ++ String.intercalate ", " reasons
          else m)
        base

/-- The chunked write loop of `_try_export_download` (linz.py:943-954):
download progress is mapped onto the 60-100 band (`60 + percent * 0.4`), the
callback fires when the mapped percent advanced by at least 0.4 or the
download just completed, and a `False` return raises
`Exception("Download cancelled")`. Returns whether the loop was cancelled. -/
def exportFileLoop (cb : Cb) (total : Nat) : List Nat → Nat → ℚ → Bool
  | [], _, _ => false
  | c :: rest, downloaded, lastPercent =>
      if c = 0 then exportFileLoop cb total rest downloaded lastPercent
      else
        let downloaded' := downloaded + c
        if total ≠ 0 then
          let dp : ℚ := (downloaded' : ℚ) / (total : ℚ) * 100
          let percent := 60 + dp * (2 / 5)
          if (2 / 5 : ℚ) ≤ percent - lastPercent ∨ downloaded' = total then
            if cb percent downloaded' total = false then true
            else exportFileLoop cb total rest downloaded' percent
          else exportFileLoop cb total rest downloaded' lastPercent
        else exportFileLoop cb total rest downloaded' lastPercent

/-- The observable environment of one `_try_export_download` run
(linz.py:787-1038): the export-creation POST (a raising request, its status,
body text and parsed `invalid_reasons`), the job id of the created export,
the poll responses, the result-archive GET (raising or a chunk stream), and
the archive contents seen by the extraction step. `zipRaised` models any
exception inside the `try` at linz.py:958-967 (which the source swallows
with the archive left in place); `extractedExists` is
`extracted_path.exists()` after extraction. -/
structure ExportEnv where
  createRaised : Option String := none
  createStatus : Nat := 201
  createBody : String := ""
  createItems : Option (List (List String)) := none
  export_id : Option String := some "1"
  polls : Nat → PollResp := fun _ => {}
  fileRaised : Option String := none
  fileTotal : Nat := 0
  fileChunks : List Nat := []
  zipRaised : Bool := false
  zipNames : List String := []
  extractedExists : Bool := true

/-- The point at which one `_try_export_download` run leaves its control
flow. `constructResult p` marks reaching the final
`return DownloadResult(..., already_clipped=True)` at linz.py:1017-1023 with
final path `p` (the extracted file when one exists, else the archive). -/
inductive ExportOutcome
  | requestFailed (s : String)
  | authFailed (status : Nat) (detail : String)
  | badRequest (status : Nat) (items : Option (List (List String)))
  | noId
  | pollCancelled
  | pollHttp (s : String)
  | jobFailed (msg : String)
  | fileHttp (s : String)
  | downloadCancelled
  | constructResult (finalPath : String)
deriving DecidableEq, Repr

/-- linz.py `_try_export_download` (lines 787-1038), control flow up to the
final constructor call: the creation POST raising is caught separately
(lines 832-843); a 401/403 is an authentication failure (845-852); any other
4xx+ produces the structured validation message (854-874); a missing id
fails (880-886); then the poll loop (890-925), the archive GET (930-936),
the chunked write (943-954), the extraction `try` (956-967) and the
reprojection `try` (969-1015) — the latter swallows every exception and
cannot change the outcome, so it has no environment field. -/
def try_export_flow (env : ExportEnv) (cb : Cb) (fuel : Nat)
    (safe_name out_dir : String) : Option ExportOutcome :=
  match env.createRaised with
  | some s => some (.requestFailed s)
  | none =>
      if env.createStatus = 401 ∨ env.createStatus = 403 then
        some (.authFailed env.createStatus (pyTake env.createBody 300))
      else if 400 ≤ env.createStatus then
        some (.badRequest env.createStatus env.createItems)
      else
        match env.export_id with
        | none => some .noId
        | some _ =>
            match pollLoop cb env.polls fuel 0 with
            | none => none
            | some .cancelled => some .pollCancelled
            | some (.httpError s) => some (.pollHttp s)
            | some (.jobFailed m) => some (.jobFailed m)
            | some (.ready _url) =>
                match env.fileRaised with
                | some s => some (.fileHttp s)
                | none =>
                    if exportFileLoop cb env.fileTotal env.fileChunks 0 0 then
                      some .downloadCancelled
                    else
                      let zipPath := out_dir ++ "/" ++ safe_name ++ ".zip"
                      match (if env.zipRaised then none else firstRasterEntry env.zipNames) with
                      | some nm =>
                          if env.extractedExists then
                            some (.constructResult (out_dir ++ "/" ++ nm))
                          else some (.constructResult zipPath)
                      | none => some (.constructResult zipPath)

/-- The `DownloadResult` each exit point of `_try_export_download` returns.
At `constructResult` the source would build the success result, but the
`already_clipped` keyword raises `TypeError` (see `alreadyClippedErr`), which
the handler `except Exception as e` at linz.py:1032-1038 converts into the
failed result with message `Export exception: TypeError: …`. -/
def exportOutcomeResult (out_dir : String) : ExportOutcome → DownloadResult
  | .requestFailed s =>
      mkFail out_dir ("Export request failed: " ++ (if s = "" then "Network error" else s))
  | .authFailed status detail =>
      mkFail out_dir ("Export auth (" ++ toString status ++ "): " ++ detail)
  | .badRequest status items => mkFail out_dir (exportBadRequestMsg status items)
  | .noId => mkFail out_dir "Failed to create export job - no ID returned"
  | .pollCancelled => mkFail out_dir "Download cancelled"
  | .pollHttp s => mkFail out_dir ("Export HTTP error: " ++ s)
  | .jobFailed m => mkFail out_dir ("Export failed: " ++ m)
  | .fileHttp s => mkFail out_dir ("Export HTTP error: " ++ s)
  | .downloadCancelled => mkFail out_dir "Export exception: Exception: Download cancelled"
  | .constructResult _ =>
      mkFail out_dir ("Export exception: TypeError: " ++ alreadyClippedErr)

/-- linz.py `_try_export_download`: outcome mapped to its result; `none`
when the unbounded poll loop is still running after `fuel` iterations. -/
def try_export_download (env : ExportEnv) (cb : Cb) (fuel : Nat)
    (safe_name out_dir : String) : Option DownloadResult :=
  (try_export_flow env cb fuel safe_name out_dir).map (exportOutcomeResult out_dir)

theorem exportOutcomeResult_not_success (out_dir : String) (o : ExportOutcome) :
    (exportOutcomeResult out_dir o).success = false := by
  cases o <;> rfl

theorem exportOutcomeResult_has_msg (out_dir : String) (o : ExportOutcome) :
    ∃ m, (exportOutcomeResult out_dir o).error_message = some m := by
  cases o <;> exact ⟨_, rfl⟩

/-- linz.py `_download_raster` (lines 483-512): try WCS, on its success
return it; otherwise try the job-based export, on its success return it;
otherwise surface the export error alone when it mentions
outside/coverage, else the concatenation `WCS: … | Export: …`. The second
component lists the strategies invoked, in order. (The source reads
`export_result.error_message.lower()` — never `None` on a failure, see
`exportOutcomeResult_has_msg`; `getD` mirrors that access.) The
continuation after a failed WCS attempt (linz.py:497-512) is split out as
`raster_wrap` so the composition stays rewriting-friendly. -/
def raster_wrap (wcs : DownloadResult) (out_dir : String) (ex : DownloadResult) :
    DownloadResult × List String :=
  if ex.success then (ex, ["wcs", "export"])
  else
    let ee := ex.error_message.getD ""
    let finalError :=
      if pyIn "outside" (pyLower ee) || pyIn "coverage" (pyLower ee) then ee
      else "WCS: " ++ wcs.error_message.getD "" ++ " | Export: " ++ ee
    (mkFail out_dir finalError, ["wcs", "export"])

def download_raster (wcs_env : WcsEnv) (ex_env : ExportEnv) (cb : Cb) (fuel : Nat)
    (safe_name out_dir : String) : Option (DownloadResult × List String) :=
  let wcs := (try_wcs_download wcs_env cb safe_name out_dir).1
  if wcs.success then some (wcs, ["wcs"])
  else (try_export_download ex_env cb fuel safe_name out_dir).map (raster_wrap wcs out_dir)

/-- WCS environment answering 404 (soft failure: fall through to export). -/
def wcsEnv404 : WcsEnv := { status := 404 }

/-- An export environment in which everything on the remote side works: the
job is created, the first poll reports `complete` with a download URL, the
100-byte archive streams in one chunk, and it contains `dem.tif`. -/
def exportEnvOk : ExportEnv :=
  { createStatus := 201
    export_id := some "9999"
    polls := fun _ => { state := "complete", download_url := some "https://x/dl.zip" }
    fileTotal := 100
    fileChunks := [100]
    zipNames := ["dem.tif"]
    extractedExists := true }

/-- C5, evaluated at the failing input: WCS fails with a 404 (a non-auth,
non-coverage error) and the job-based export succeeds on the remote side,
yet the final `DownloadResult` is a failure whose message records the
`TypeError` raised by the `already_clipped` keyword — not the success
without error message that the claim requires. -/
theorem export_success_turns_into_type_error :
    download_raster wcsEnv404 exportEnvOk cbTrue 2 "DEM" "out" =
      some (mkFail "out"
        ("WCS: WCS 404 - layer not available via WCS | Export: Export exception: TypeError: "
          ++ alreadyClippedErr), ["wcs", "export"]) := by
  simp only [download_raster, raster_wrap, try_wcs_download, try_export_download,
    try_export_flow, exportOutcomeResult, pollLoop, exportFileLoop, firstRasterEntry,
    wcsEnv404, exportEnvOk, cbTrue, mkFail]
  norm_num
  all_goals decide

/-- C6: when the WCS strategy fails and the job-based export strategy also
produces a (failed) outcome, the final error message of `_download_raster`
is the concatenation of both strategies' reasons
(`WCS: … | Export: …`) — except that an export error mentioning
outside/coverage (in particular the structured validation reason
`Selected area is outside this dataset's coverage`) supersedes the combined
message and is surfaced alone. -/
theorem download_raster_error_composition
    (wcs_env : WcsEnv) (ex_env : ExportEnv) (cb : Cb) (fuel : Nat)
    (safe_name out_dir : String) (ex : DownloadResult) (ee ew : String)
    (hw : (try_wcs_download wcs_env cb safe_name out_dir).1.success = false)
    (he : try_export_download ex_env cb fuel safe_name out_dir = some ex)
    (hee : ex.error_message = some ee)
    (hew : (try_wcs_download wcs_env cb safe_name out_dir).1.error_message = some ew) :
    ∃ r, download_raster wcs_env ex_env cb fuel safe_name out_dir = some (r, ["wcs", "export"]) ∧
      r.success = false ∧
      ((pyIn "outside" (pyLower ee) || pyIn "coverage" (pyLower ee)) = true →
        r.error_message = some ee) ∧
      ((pyIn "outside" (pyLower ee) || pyIn "coverage" (pyLower ee)) = false →
        r.error_message = some ("WCS: " ++ ew ++ " | Export: " ++ ee)) := by
  obtain ⟨o, ho, rfl⟩ := Option.map_eq_some'.mp he
  have hs : (exportOutcomeResult out_dir o).success = false :=
    exportOutcomeResult_not_success out_dir o
  refine ⟨mkFail out_dir
      (if pyIn "outside" (pyLower ee) || pyIn "coverage" (pyLower ee) then ee
       else "WCS: " ++ ew ++ " | Export: " ++ ee), ?_, ?_, ?_, ?_⟩
  · simp only [download_raster, hw, Bool.false_eq_true, if_false, try_export_download, ho,
      Option.map_some', raster_wrap, hs, hee, hew, Option.getD_some]
  · simp [mkFail]
  · intro hm
    simp [hm, mkFail]
  · intro hm
    simp [hm, mkFail]

/-- An export environment whose submission is rejected with a structured
`outside-extent` validation reason (a 400 with `invalid_reasons`). -/
def exportEnvOutside : ExportEnv :=
  { createStatus := 400, createItems := some [["outside-extent"]] }

/-- Witness for C6: with a 404 WCS failure and an `outside-extent` export
rejection, the coverage message is surfaced alone. -/
theorem download_raster_error_composition_witness :
    ∃ r, download_raster wcsEnv404 exportEnvOutside cbTrue 1 "DEM" "out" =
        some (r, ["wcs", "export"]) ∧
      r.success = false ∧
      ((pyIn "outside" (pyLower "Selected area is outside this dataset's coverage") ||
          pyIn "coverage" (pyLower "Selected area is outside this dataset's coverage")) = true →
        r.error_message = some "Selected area is outside this dataset's coverage") ∧
      ((pyIn "outside" (pyLower "Selected area is outside this dataset's coverage") ||
          pyIn "coverage" (pyLower "Selected area is outside this dataset's coverage")) = false →
        r.error_message =
          some ("WCS: WCS 404 - layer not available via WCS | Export: " ++
            "Selected area is outside this dataset's coverage")) :=
  download_raster_error_composition wcsEnv404 exportEnvOutside cbTrue 1 "DEM" "out"
    (mkFail "out" "Selected area is outside this dataset's coverage")
    "Selected area is outside this dataset's coverage"
    "WCS 404 - layer not available via WCS"
    (by decide) (by decide) (by decide) (by decide)

/-! ### src/providers/linz.py - job-based export strategy (vector) -/

/-- linz.py:742: the vector extensions searched for in the export archive. -/
def vectorExtensions : List String :=
  [".gpkg", ".geojson", ".json", ".shp", ".gml", ".kml"]

/-- linz.py:746-751: the first archive entry whose lowercased name ends in a
vector extension. -/
def firstVectorEntry (names : List String) : Option String :=
  names.find? (fun n => vectorExtensions.any (fun e => pyEndsWith (pyLower n) e))

/-- The exit points of `_try_vector_export_download` (linz.py:596-785). The
vector variant differs from the raster one: the creation POST sits inside
the one big `try`, so a raising request surfaces as the generic
`raised` case (caught at linz.py:779 with message `str(e)`); there is no
separate 401/403 branch (an auth status falls into the generic 4xx message);
the cancellation inside the chunk loop returns `Download cancelled` directly
instead of raising; a failing extraction returns
`Failed to extract vector file: …`; a missing entry returns
`No vector file found in export`; and `constructResult` marks reaching the
`return DownloadResult(..., already_clipped=True)` at linz.py:772-777, whose
unknown keyword raises `TypeError`, caught at linz.py:779 so that the
message is the bare TypeError text. -/
inductive VectorOutcome
  | raised (s : String)
  | badRequest (status : Nat) (items : Option (List (List String)))
  | noId
  | pollCancelled
  | jobFailed (msg : String)
  | downloadCancelled
  | extractFailed (s : String)
  | noVectorFile
  | constructResult (path : String)
deriving DecidableEq, Repr

/-- The chunked write loop of `_try_vector_export_download`
(linz.py:726-740): unlike the raster variant there is no 0.4-percent
throttle — every nonzero chunk reports progress when a total is known, and a
`False` callback return makes the strategy return the cancelled result
directly. Returns whether the loop was cancelled. -/
def vectorFileLoop (cb : Cb) (total : Nat) : List Nat → Nat → Bool
  | [], _ => false
  | c :: rest, downloaded =>
      if c = 0 then vectorFileLoop cb total rest downloaded
      else
        let downloaded' := downloaded + c
        if total ≠ 0 then
          let dp : ℚ := (downloaded' : ℚ) / (total : ℚ) * 100
          let percent := 60 + dp * (2 / 5)
          if cb percent downloaded' total = false then true
          else vectorFileLoop cb total rest downloaded'
        else vectorFileLoop cb total rest downloaded'

/-- The environment of one `_try_vector_export_download` run; the raster
`ExportEnv` record is reused (same observables), with `zipRaised` carrying
the text of the extraction exception. -/
structure VectorEnv where
  base : ExportEnv := {}
  extractRaised : Option String := none

/-- linz.py `_try_vector_export_download` (lines 596-785), control flow. -/
def try_vector_export_flow (env : VectorEnv) (cb : Cb) (fuel : Nat)
    (out_dir : String) : Option VectorOutcome :=
  match env.base.createRaised with
  | some s => some (.raised s)
  | none =>
      if 400 ≤ env.base.createStatus then
        some (.badRequest env.base.createStatus env.base.createItems)
      else
        match env.base.export_id with
        | none => some .noId
        | some _ =>
            match pollLoop cb env.base.polls fuel 0 with
            | none => none
            | some .cancelled => some .pollCancelled
            | some (.httpError s) => some (.raised s)
            | some (.jobFailed m) => some (.jobFailed m)
            | some (.ready _url) =>
                match env.base.fileRaised with
                | some s => some (.raised s)
                | none =>
                    if vectorFileLoop cb env.base.fileTotal env.base.fileChunks 0 then
                      some .downloadCancelled
                    else
                      match env.extractRaised with
                      | some s => some (.extractFailed s)
                      | none =>
                          match firstVectorEntry env.base.zipNames with
                          | some nm =>
                              if env.base.extractedExists then
                                some (.constructResult (out_dir ++ "/" ++ nm))
                              else some .noVectorFile
                          | none => some .noVectorFile

/-- The error message each exit of `_try_vector_export_download` carries (in
this strategy every exit is a failure: the success construction at
linz.py:772-777 raises the `already_clipped` TypeError, caught at line 779
as the bare text `str(e)`). -/
def vectorOutcomeErr : VectorOutcome → String
  | .raised s => s
  | .badRequest status items => exportBadRequestMsg status items
  | .noId => "Failed to create export job"
  | .pollCancelled => "Download cancelled"
  | .jobFailed m => "Export failed: " ++ m
  | .downloadCancelled => "Download cancelled"
  | .extractFailed s => "Failed to extract vector file: " ++ s
  | .noVectorFile => "No vector file found in export"
  | .constructResult _ => alreadyClippedErr

/-- linz.py `_try_vector_export_download`: outcome mapped to its (always
failed) result. -/
def try_vector_export_download (env : VectorEnv) (cb : Cb) (fuel : Nat)
    (out_dir : String) : Option DownloadResult :=
  (try_vector_export_flow env cb fuel out_dir).map
    (fun o => mkFail out_dir (vectorOutcomeErr o))

/-- linz.py `_download_vector` (lines 462-481): run the vector export
strategy; return its result on success, else wrap its error as
`Export API failed: …`. The second component lists the strategies invoked;
the wrapping of the strategy result (linz.py:473-481) is split out as
`vector_wrap`. -/
def vector_wrap (out_dir : String) (ex : DownloadResult) : DownloadResult × List String :=
  if ex.success then (ex, ["vector_export"])
  else
    (mkFail out_dir ("Export API failed: " ++ ex.error_message.getD ""), ["vector_export"])

def download_vector (env : VectorEnv) (cb : Cb) (fuel : Nat)
    (out_dir : String) : Option (DownloadResult × List String) :=
  (try_vector_export_download env cb fuel out_dir).map (vector_wrap out_dir)

/-! ### src/providers/linz.py - LINZProvider.download -/

/-- linz.py:447: the sanitized file-name stem derived from the dataset
name. -/
def safeName (name : String) : String :=
  (((name.replace " " "_").replace "/" "-").replace "(" "").replace ")" ""

/-- The full environment of one `LINZProvider.download` call: the API key
returned by `APIKeyManager.get_api_key` for the dataset's domain
(`QgsSettings.value(…, "")`, so the missing-key case is the empty string,
api_keys.py:17-18), and the per-strategy environments. -/
structure DownloadEnv where
  apiKey : String := ""
  wcs : WcsEnv := {}
  exportEnv : ExportEnv := {}
  vectorEnv : VectorEnv := {}
  fuel : Nat := 1

/-- linz.py `LINZProvider.download` (lines 420-460): a portal-only dataset
fails immediately with the coverage message; a missing API key fails with
the key message; otherwise dispatch on the data type to `_download_raster`
or `_download_vector`. The second component of the result records which
transfer strategies were invoked, in order (empty on the two early
returns — no strategy runs). The `except Exception` wrapper at lines 454-460
has no counterpart because every embedded path returns. `none` models an
execution still inside the unbounded poll loop after `fuel` iterations. -/
def LINZProvider.download (ds : Dataset) (env : DownloadEnv) (cb : Cb)
    (out_dir : String) : Option (DownloadResult × List String) :=
  if ds.metadata.portal_only then
    some (mkFail out_dir "No data coverage in selected area. Try a different location or dataset.", [])
  else if env.apiKey = "" then
    some (mkFail out_dir ("API key required for " ++ ds.metadata.domain), [])
  else
    match ds.data_type with
    | .raster => download_raster env.wcs env.exportEnv cb env.fuel (safeName ds.name) out_dir
    | _ => download_vector env.vectorEnv cb env.fuel out_dir

/-- C2: a dataset whose metadata marks it portal-only always makes
`LINZProvider.download` return a failed result carrying the
coverage-specific message, with no transfer strategy invoked (the check is
the first statement of `download`, linz.py:427-433, before any strategy
dispatch). -/
theorem download_portal_only_fails_fast (ds : Dataset) (env : DownloadEnv)
    (cb : Cb) (out_dir : String) (h : ds.metadata.portal_only = true) :
    LINZProvider.download ds env cb out_dir =
      some (mkFail out_dir
        "No data coverage in selected area. Try a different location or dataset.", []) := by
  simp [LINZProvider.download, h]

/-- A concrete portal-only dataset for the C2 witness (the shape `search`
builds in show-all mode, linz.py:269-324). -/
def portalOnlyDataset : Dataset :=
  { id := "data.linz.govt.nz:104772"
    name := "[No Coverage] NZ DEM"
    data_type := .raster
    metadata := { layer_id := "104772", portal_only := true } }

/-- Witness for C2. -/
theorem download_portal_only_fails_fast_witness :
    LINZProvider.download portalOnlyDataset {} cbTrue "out" =
      some (mkFail "out"
        "No data coverage in selected area. Try a different location or dataset.", []) :=
  download_portal_only_fails_fast portalOnlyDataset {} cbTrue "out" rfl

/-! ### C10: every failed result of LINZProvider.download carries a
nonempty error message -/

theorem append_ne_empty (a b : String) (h : a ≠ "") : a ++ b ≠ "" := by
  intro hc
  apply h
  apply String.ext
  have hd := congrArg String.data hc
  rw [String.data_append] at hd
  have hd' : a.data ++ b.data = ([] : List Char) := hd
  have h0 : a.data = [] := (List.append_eq_nil.mp hd').1
  simp [h0]

theorem exportBadRequestFold_ne (its : List (List String)) :
    ∀ acc : String, acc ≠ "" →
      its.foldl
        (fun m reasons =>
          if reasons.contains "outside-extent" then
            "Selected area is outside this dataset's coverage"
          else if reasons ≠ [] then
            "Export validation failed: " ++ String.intercalate ", " reasons
          else m) acc ≠ "" := by
  induction its with
  | nil => intro acc h; simpa using h
  | cons r rs ih =>
      intro acc h
      simp only [List.foldl_cons]
      apply ih
      by_cases h1 : r.contains "outside-extent" = true
      · rw [if_pos h1]
        decide
      · rw [if_neg h1]
        by_cases h2 : r = []
        · rw [if_neg (by simp [h2])]
          exact h
        · rw [if_pos h2]
          exact append_ne_empty _ _ (by decide)

theorem exportBadRequestMsg_ne (status : Nat) (items : Option (List (List String))) :
    exportBadRequestMsg status items ≠ "" := by
  cases items with
  | none =>
      simp only [exportBadRequestMsg]
      exact append_ne_empty _ _ (append_ne_empty _ _ (by decide))
  | some its =>
      simp only [exportBadRequestMsg]
      exact exportBadRequestFold_ne its _
        (append_ne_empty _ _ (append_ne_empty _ _ (by decide)))

theorem exportOutcomeResult_msg_ne (out_dir : String) (o : ExportOutcome) :
    ∃ m, (exportOutcomeResult out_dir o).error_message = some m ∧ m ≠ "" := by
  cases o with
  | requestFailed s =>
      refine ⟨_, rfl, append_ne_empty _ _ (by decide)⟩
  | authFailed status detail =>
      exact ⟨_, rfl, append_ne_empty _ _ (append_ne_empty _ _ (append_ne_empty _ _ (by decide)))⟩
  | badRequest status items => exact ⟨_, rfl, exportBadRequestMsg_ne status items⟩
  | noId => exact ⟨_, rfl, by decide⟩
  | pollCancelled => exact ⟨_, rfl, by decide⟩
  | pollHttp s => exact ⟨_, rfl, append_ne_empty _ _ (by decide)⟩
  | jobFailed m => exact ⟨_, rfl, append_ne_empty _ _ (by decide)⟩
  | fileHttp s => exact ⟨_, rfl, append_ne_empty _ _ (by decide)⟩
  | downloadCancelled => exact ⟨_, rfl, by decide⟩
  | constructResult p => exact ⟨_, rfl, append_ne_empty _ _ (by decide)⟩

theorem try_wcs_fail_msg (env : WcsEnv) (cb : Cb) (sn od : String)
    (h : (try_wcs_download env cb sn od).1.success = false) :
    ∃ m, (try_wcs_download env cb sn od).1.error_message = some m ∧ m ≠ "" := by
  simp only [try_wcs_download] at h ⊢
  by_cases h1 : env.status = 404
  · simp only [h1, if_true, if_pos]
    exact ⟨_, rfl, by decide⟩
  · simp only [h1, if_false, if_neg] at h ⊢
    by_cases h2 : 400 ≤ env.status
    · rw [if_pos h2]
      exact ⟨_, rfl, append_ne_empty _ _ (by decide)⟩
    · rw [if_neg h2] at h ⊢
      by_cases h3 : (pyIn "xml" (pyLower env.contentType) &&
          (pyIn "exception" (pyLower (pyTake env.bodyText 1000)) ||
            pyIn "error" (pyLower (pyTake env.bodyText 1000)))) = true
      · rw [if_pos h3]
        exact ⟨_, rfl, append_ne_empty _ _ (by decide)⟩
      · rw [if_neg h3] at h ⊢
        by_cases h4 : (wcsLoop cb env.contentLength env.chunks 0 0 []).2.2.2 = true
        · simp only [h4, if_true, if_pos]
          exact ⟨_, rfl, by decide⟩
        · simp only [h4, if_false, if_neg] at h
          simp at h

theorem download_raster_fail_msg (wcs_env : WcsEnv) (ex_env : ExportEnv) (cb : Cb)
    (fuel : Nat) (sn od : String) (r : DownloadResult) (strat : List String)
    (h : download_raster wcs_env ex_env cb fuel sn od = some (r, strat))
    (hf : r.success = false) :
    ∃ m, r.error_message = some m ∧ m ≠ "" := by
  simp only [download_raster] at h
  by_cases hw : (try_wcs_download wcs_env cb sn od).1.success = true
  · rw [if_pos hw] at h
    simp only [Option.some.injEq, Prod.mk.injEq] at h
    obtain ⟨h1, -⟩ := h
    rw [← h1, hw] at hf
    simp at hf
  · rw [if_neg hw] at h
    obtain ⟨ex, he, hwrap⟩ := Option.map_eq_some'.mp h
    obtain ⟨o, ho, rfl⟩ := Option.map_eq_some'.mp he
    have hs : (exportOutcomeResult od o).success = false :=
      exportOutcomeResult_not_success od o
    obtain ⟨ee, hee, heene⟩ := exportOutcomeResult_msg_ne od o
    simp only [raster_wrap, hs, Bool.false_eq_true, if_false, hee, Option.getD_some,
      Prod.mk.injEq] at hwrap
    obtain ⟨h1, -⟩ := hwrap
    rw [← h1]
    simp only [mkFail]
    refine ⟨_, rfl, ?_⟩
    by_cases hm : (pyIn "outside" (pyLower ee) || pyIn "coverage" (pyLower ee)) = true
    · rw [if_pos hm]
      exact heene
    · rw [if_neg hm]
      exact append_ne_empty _ _ (append_ne_empty _ _ (append_ne_empty _ _ (by decide)))

theorem download_vector_fail_msg (env : VectorEnv) (cb : Cb) (fuel : Nat)
    (od : String) (r : DownloadResult) (strat : List String)
    (h : download_vector env cb fuel od = some (r, strat)) :
    r.success = false → ∃ m, r.error_message = some m ∧ m ≠ "" := by
  intro _
  simp only [download_vector] at h
  obtain ⟨ex, he, hwrap⟩ := Option.map_eq_some'.mp h
  obtain ⟨o, ho, rfl⟩ := Option.map_eq_some'.mp he
  simp only [vector_wrap, mkFail, Bool.false_eq_true, if_false, Prod.mk.injEq] at hwrap
  obtain ⟨h1, -⟩ := hwrap
  rw [← h1]
  exact ⟨_, rfl, append_ne_empty _ _ (by decide)⟩

/-- C10: every `DownloadResult` that `LINZProvider.download` returns with
`success = false` carries a non-`None`, nonempty `error_message` — on the
portal-only and missing-key early returns, on every WCS failure, on every
export-strategy exit (including the caught `already_clipped` TypeError), and
on the combined raster failure message. -/
theorem download_failure_has_error_message (ds : Dataset) (env : DownloadEnv)
    (cb : Cb) (out_dir : String) (r : DownloadResult) (strat : List String)
    (h : LINZProvider.download ds env cb out_dir = some (r, strat))
    (hf : r.success = false) :
    ∃ m, r.error_message = some m ∧ m ≠ "" := by
  simp only [LINZProvider.download] at h
  by_cases hp : ds.metadata.portal_only = true
  · rw [if_pos (by simp [hp])] at h
    obtain ⟨h1, -⟩ := Prod.mk.injEq .. ▸ Option.some.inj h
    subst h1
    exact ⟨_, rfl, by decide⟩
  · rw [if_neg (by simp [hp])] at h
    by_cases hk : env.apiKey = ""
    · rw [if_pos hk] at h
      obtain ⟨h1, -⟩ := Prod.mk.injEq .. ▸ Option.some.inj h
      subst h1
      exact ⟨_, rfl, append_ne_empty _ _ (by decide)⟩
    · rw [if_neg hk] at h
      cases hd : ds.data_type with
      | raster =>
          rw [hd] at h
          exact download_raster_fail_msg _ _ _ _ _ _ _ _ h hf
      | vector =>
          rw [hd] at h
          exact download_vector_fail_msg _ _ _ _ _ _ h hf
      | pointcloud =>
          rw [hd] at h
          exact download_vector_fail_msg _ _ _ _ _ _ h hf

/-- Witness for C10 at a concrete failing input (missing API key). -/
theorem download_failure_has_error_message_witness :
    ∃ m, (mkFail "out" ("API key required for " ++ "data.linz.govt.nz")).error_message =
        some m ∧ m ≠ "" :=
  download_failure_has_error_message
    { id := "data.linz.govt.nz:50768", name := "NZ Parcels", data_type := .vector }
    {} cbTrue "out"
    (mkFail "out" ("API key required for " ++ "data.linz.govt.nz")) [] (by decide) (by decide)

/-! ### src/core/downloader.py - the after-download clip step -/

/-- The observable behaviour of the `Clipper.clip` call inside
`DownloadTask.run` (downloader.py:61-75): either it returns the clipped
path, or it raises with some exception text. -/
structure ClipEnv where
  raised : Option String := none
  clippedPath : String := ""
deriving DecidableEq, Repr

/-- downloader.py `DownloadTask.run`, lines 61-75: when the provider result
is a success and a clip geometry is configured, run the clip; on success
replace `output_path` and set `clipped`; on an exception set
`error_message = "Clip failed: …"` — the source changes nothing else: the
`success` flag stays `True`, `output_path` keeps the unclipped file, and
`warning_message` is never touched (no code in the repository ever assigns
it). -/
def runClipStep (result : DownloadResult) (hasClipGeometry : Bool)
    (env : ClipEnv) : DownloadResult :=
  if result.success && hasClipGeometry then
    match env.raised with
    | none => { result with output_path := env.clippedPath, clipped := true }
    | some e => { result with error_message := some ("Clip failed: " ++ e) }
  else result

/-- A successful provider result for the C7 scenario. -/
def successResultC7 : DownloadResult :=
  { output_path := "out/NZ_DEM.tif", success := true }

/-- C7 counterexample: when the after-download clip step fails (here the
clip raises with text `boom`), the returned result does not carry a warning:
`warning_message` stays `None` and the failure text lands in
`error_message` — the claim that post-processing failure is reported as a
warning and not an error is false. -/
theorem clip_failure_sets_error_not_warning :
    (runClipStep successResultC7 true { raised := some "boom" }).warning_message = none ∧
    (runClipStep successResultC7 true { raised := some "boom" }).error_message =
      some "Clip failed: boom" := by
  constructor <;> rfl

/-- C7 as amended: a failing after-download clip step never fails the
dataset — the result keeps `success = true` and the unclipped
`output_path` — but the failure is recorded in `error_message`, not as a
warning: `warning_message` is left untouched (the source never assigns
`warning_message` anywhere). -/
theorem clip_failure_keeps_success (r : DownloadResult) (env : ClipEnv)
    (e : String) (hr : r.success = true) (he : env.raised = some e) :
    (runClipStep r true env).success = true ∧
    (runClipStep r true env).output_path = r.output_path ∧
    (runClipStep r true env).warning_message = r.warning_message ∧
    (runClipStep r true env).error_message = some ("Clip failed: " ++ e) := by
  simp [runClipStep, hr, he]

/-- Witness for the amended C7. -/
theorem clip_failure_keeps_success_witness :
    (runClipStep successResultC7 true { raised := some "locked" }).success = true ∧
    (runClipStep successResultC7 true { raised := some "locked" }).output_path =
      successResultC7.output_path ∧
    (runClipStep successResultC7 true { raised := some "locked" }).warning_message =
      successResultC7.warning_message ∧
    (runClipStep successResultC7 true { raised := some "locked" }).error_message =
      some ("Clip failed: " ++ "locked") :=
  clip_failure_keeps_success successResultC7 { raised := some "locked" } "locked" rfl rfl

end LinzSpec
